import Mathlib

/-!
# Verification of the TrackerVidriera serial receiver
  (src/Comunicacion-Serial/src/main.cpp)

Shallow embedding of the ESP32 sketch. The mutable global variables of the
sketch (main.cpp lines 23-44) become the fields of `DeviceState`; the body of
`loop` that consumes one serial line (lines 288-310) becomes `loopStep`;
`handleResetStats` (lines 201-222) becomes a pure state transformer; the
statistics page `handleStats` (lines 117-198) becomes the pure view
`statsSnapshot`.

Machine-integer conventions: `unsigned long` on the ESP32 is 32 bits, so
counters that the sketch increments are taken modulo 2^32 and `ULONG_MAX`
is 4294967295. `int` values are modelled as `Int`. Floating-point values
computed by the stats page are modelled as exact rationals, except that a
float division by zero is represented explicitly by the `FloatRate`
constructors `posInf` / `nan` (rounding of finite values is not modelled).
-/

/-- Width modulus of `unsigned long` on the ESP32 target: 2^32. -/
def ulongMod : Nat := 4294967296

/-- `ULONG_MAX` on the ESP32 target. -/
def ulongMax : Nat := 4294967295

/-- Byte test performed by `atol` for leading whitespace. -/
def isSpaceChar (c : Char) : Bool :=
  c = ' ' || c = '\t' || c = '\n' || c = '\x0b' || c = '\x0c' || c = '\r'

/-- Drop the leading whitespace of the buffer, as `atol` does. -/
def skipSpaces : List Char → List Char
  | [] => []
  | c :: cs => if isSpaceChar c then skipSpaces cs else c :: cs

/-- Accumulate the value of the longest leading run of decimal digits;
stops at the first non-digit, yielding the accumulator (so a buffer with no
leading digits yields 0, exactly as `atol`). -/
def digitsVal : List Char → Int → Int
  | [], acc => acc
  | c :: cs, acc =>
    if c.isDigit then digitsVal cs (10 * acc + ((c.toNat - 48 : Nat) : Int))
    else acc

/-- Arduino `String::toInt`, which is C `atol`: skip whitespace, read an
optional sign, then a run of decimal digits; inputs with no leading digits
convert to 0. (Overflow of `long` is undefined behaviour in the source and
is not modelled; the sketch compares the result with 0 and 180.) -/
def atolChars (s : List Char) : Int :=
  match skipSpaces s with
  | '-' :: cs => - digitsVal cs 0
  | '+' :: cs => digitsVal cs 0
  | cs => digitsVal cs 0

/-- The mutable global state of the sketch (main.cpp lines 23-44), one field
per global variable, plus the last angle written to the servo. -/
structure DeviceState where
  currentPan : Int
  currentTilt : Int
  angulo : Int
  totalMessages : Nat
  stressTestMessages : Nat
  lastMessageTime : Nat
  stressTestStartTime : Nat
  minInterval : Nat
  maxInterval : Nat
  totalInterval : Nat
  stressTestActive : Bool
  lastErrorCount : Nat
  intervalHistory : List Nat
  intervalHistoryIndex : Int
  servoAngle : Int
deriving DecidableEq, Repr

/-- Initial values of the globals (main.cpp lines 23-44): pan/tilt at 90,
counters at 0, `minInterval = ULONG_MAX`, the history array zero-initialised. -/
def initState : DeviceState :=
  { currentPan := 90
    currentTilt := 90
    angulo := 90
    totalMessages := 0
    stressTestMessages := 0
    lastMessageTime := 0
    stressTestStartTime := 0
    minInterval := ulongMax
    maxInterval := 0
    totalInterval := 0
    stressTestActive := false
    lastErrorCount := 0
    intervalHistory := List.replicate 100 0
    intervalHistoryIndex := 0
    servoAngle := 90 }

/-- One serial command consumed by `loop` (main.cpp lines 288-310):
`angulo = angleString.toInt()`, then, if `angulo >= 0 && angulo <= 180`,
the servo is written, `currentPan = angulo` and `totalMessages++`
(a 32-bit unsigned increment); otherwise only a message is printed.
No other global is touched on either path. -/
def loopStep (st : DeviceState) (s : List Char) : DeviceState :=
  if 0 ≤ atolChars s ∧ atolChars s ≤ 180 then
    { st with
        angulo := atolChars s
        servoAngle := atolChars s
        currentPan := atolChars s
        totalMessages := (st.totalMessages + 1) % ulongMod }
  else
    { st with angulo := atolChars s }

/-- `handleResetStats` (main.cpp lines 201-222): every statistics global is
returned to its initial value and the history array is cleared; `currentPan`,
`currentTilt`, `angulo` and the servo are not touched. -/
def handleResetStats (st : DeviceState) : DeviceState :=
  { st with
      totalMessages := 0
      stressTestMessages := 0
      stressTestStartTime := 0
      stressTestActive := false
      lastMessageTime := 0
      minInterval := ulongMax
      maxInterval := 0
      totalInterval := 0
      lastErrorCount := 0
      intervalHistory := List.replicate 100 0
      intervalHistoryIndex := 0 }

/-- 32-bit unsigned subtraction `a - b`, the arithmetic performed on
`unsigned long` operands in main.cpp lines 144 and 153. -/
def usub32 (a b : Nat) : Nat :=
  (a % ulongMod + (ulongMod - b % ulongMod)) % ulongMod

/-- The `testDuration` of main.cpp line 153:
`lastMessageTime - stressTestStartTime` on `unsigned long`. -/
def testDuration (st : DeviceState) : Nat :=
  usub32 st.lastMessageTime st.stressTestStartTime

/-- The `elapsedTime` of main.cpp line 144:
`millis() - stressTestStartTime` on `unsigned long`. -/
def stressElapsed (now : Nat) (st : DeviceState) : Nat :=
  usub32 now st.stressTestStartTime

/-- Value of a C float rate computation: a finite rational, or the result of
dividing by zero (`posInf` when the numerator is positive, `nan` for 0/0). -/
inductive FloatRate where
  | val (q : ℚ)
  | posInf
  | nan
deriving DecidableEq, Repr

/-- The float division `num / den` performed unconditionally by the stats
page (main.cpp lines 145 and 154); IEEE semantics when `den = 0`. -/
def floatDiv (num : ℚ) (den : Nat) : FloatRate :=
  if den = 0 then (if num = 0 then FloatRate.nan else FloatRate.posInf)
  else FloatRate.val (num / (den : ℚ))

/-- The stress-test section of the stats page: in-progress (lines 142-149),
last completed (lines 151-158), or absent. -/
inductive StressView where
  | active (elapsed : Nat) (messages : Nat) (rate : FloatRate)
  | completed (duration : Nat) (messages : Nat) (rate : FloatRate)
  | none
deriving DecidableEq, Repr

/-- The stress section rendered by `handleStats` (main.cpp lines 142-159):
if `stressTestActive`, elapsed time from `millis()` and rate
`stressTestMessages * 1000.0 / elapsedTime`; else if `stressTestMessages > 0`,
duration `lastMessageTime - stressTestStartTime` and rate
`stressTestMessages * 1000.0 / testDuration`; else nothing. Neither division
is guarded against a zero denominator. -/
def stressView (now : Nat) (st : DeviceState) : StressView :=
  if st.stressTestActive then
    StressView.active (stressElapsed now st) st.stressTestMessages
      (floatDiv ((st.stressTestMessages * 1000 : Nat) : ℚ) (stressElapsed now st))
  else if 0 < st.stressTestMessages then
    StressView.completed (testDuration st) st.stressTestMessages
      (floatDiv ((st.stressTestMessages * 1000 : Nat) : ℚ) (testDuration st))
  else StressView.none

/-- The interval section of the stats page (main.cpp lines 162-168): rendered
only when `totalMessages > 1`, with
`avgInterval = totalInterval / (float)(totalMessages - 1)`. -/
def intervalStatsView (st : DeviceState) : Option (Nat × Nat × ℚ) :=
  if 1 < st.totalMessages then
    some (st.minInterval, st.maxInterval,
      (st.totalInterval : ℚ) / ((st.totalMessages - 1 : Nat) : ℚ))
  else none

/-- `displayCount` of main.cpp line 179: `min((int)totalMessages - 1, 100)`. -/
def displayCount (st : DeviceState) : Int :=
  min ((st.totalMessages : Int) - 1) 100

/-- `startIdx` of main.cpp line 180:
`(intervalHistoryIndex - displayCount + 100) % 100` (the operand is
non-negative for any cursor in [0,100), so C `%` agrees with `Int.emod`). -/
def historyStart (st : DeviceState) : Int :=
  (st.intervalHistoryIndex - displayCount st + 100) % 100

/-- The history row of the stats page (main.cpp lines 175-188): rendered only
when `totalMessages > 1`; cell `i` reads `intervalHistory[(startIdx + i) % 100]`. -/
def historyDisplay (st : DeviceState) : List Nat :=
  if 1 < st.totalMessages then
    (List.range (displayCount st).toNat).map
      (fun i => st.intervalHistory.getD ((historyStart st + (i : Int)) % 100).toNat 0)
  else []

/-- Everything `handleStats` renders from the state (main.cpp lines 117-198):
total count (line 139), the stress section, the interval section, the error
counter (line 171), and the history row. -/
structure StatsView where
  totalMessages : Nat
  stress : StressView
  intervalStats : Option (Nat × Nat × ℚ)
  errorCount : Nat
  history : List Nat
deriving DecidableEq, Repr

/-- The full statistics snapshot rendered by `handleStats`; `now` is the
value `millis()` would return during the render. -/
def statsSnapshot (now : Nat) (st : DeviceState) : StatsView :=
  { totalMessages := st.totalMessages
    stress := stressView now st
    intervalStats := intervalStatsView st
    errorCount := st.lastErrorCount
    history := historyDisplay st }

/-- `handleStats` as a state transformer: the C++ function reads the globals
and sends HTML but writes no global, so the state component is unchanged. -/
def handleStats (now : Nat) (st : DeviceState) : DeviceState × StatsView :=
  (st, statsSnapshot now st)

/-- States reachable from power-on by any sequence of serial submissions and
statistics resets (the only operations of the sketch that write the globals). -/
inductive ReachableState : DeviceState → Prop where
  | init : ReachableState initState
  | submit {st : DeviceState} (s : List Char) :
      ReachableState st → ReachableState (loopStep st s)
  | reset {st : DeviceState} :
      ReachableState st → ReachableState (handleResetStats st)

/-- Invariant of every reachable state: the sketch never starts a stress test,
never records a message timestamp, never records an interval, and never
increments the error counter (only `handleResetStats` writes those globals,
and it writes their initial values); `currentTilt` keeps its initial 90. -/
theorem reachable_stats_static (st : DeviceState) (h : ReachableState st) :
    st.stressTestActive = false ∧ st.stressTestMessages = 0 ∧
    st.lastMessageTime = 0 ∧ st.totalInterval = 0 ∧
    st.minInterval = ulongMax ∧ st.maxInterval = 0 ∧
    st.lastErrorCount = 0 ∧ st.intervalHistoryIndex = 0 ∧
    st.intervalHistory = List.replicate 100 0 ∧ st.currentTilt = 90 := by
  induction h with
  | init => exact ⟨rfl, rfl, rfl, rfl, rfl, rfl, rfl, rfl, rfl, rfl⟩
  | submit s _ ih => unfold loopStep; split <;> exact ih
  | reset _ ih =>
      exact ⟨rfl, rfl, rfl, rfl, rfl, rfl, rfl, rfl, rfl,
        ih.2.2.2.2.2.2.2.2.2⟩

/-- C1 (code bug): the non-numeric line "abc" parses to 0 via `toInt` and is
ACCEPTED (`totalMessages` becomes 1, `currentPan` becomes 0) instead of being
rejected, and on the out-of-range line "200", which is rejected,
`lastErrorCount` stays 0 instead of incrementing — no path of `loop` ever
increments the error counter the sketch declares and displays. -/
theorem error_counter_never_incremented_bug :
    (loopStep initState ['a', 'b', 'c']).totalMessages = 1 ∧
    (loopStep initState ['a', 'b', 'c']).currentPan = 0 ∧
    (loopStep initState ['a', 'b', 'c']).lastErrorCount = 0 ∧
    (loopStep initState ['2', '0', '0']).totalMessages = 0 ∧
    (loopStep initState ['2', '0', '0']).lastErrorCount = 0 := by
  decide

/-- C2: a well-formed text carrying an integer v in [0,180] is accepted:
`totalMessages` increments by exactly 1 (below the 32-bit wrap), and the
actuator position `currentPan` (and the servo) afterwards equals v. -/
theorem loopStep_valid_submit (st : DeviceState) (s : List Char) (v : Int)
    (hp : atolChars s = v) (h0 : 0 ≤ v) (h180 : v ≤ 180)
    (hc : st.totalMessages + 1 < ulongMod) :
    (loopStep st s).totalMessages = st.totalMessages + 1 ∧
    (loopStep st s).currentPan = v ∧
    (loopStep st s).servoAngle = v := by
  unfold loopStep
  rw [hp, if_pos ⟨h0, h180⟩]
  exact ⟨Nat.mod_eq_of_lt hc, rfl, rfl⟩

/-- Witness for C2 at the concrete line "90" from the initial state. -/
theorem loopStep_valid_submit_witness :
    atolChars ['9', '0'] = 90 ∧
    (loopStep initState ['9', '0']).totalMessages = initState.totalMessages + 1 ∧
    (loopStep initState ['9', '0']).currentPan = 90 ∧
    (loopStep initState ['9', '0']).servoAngle = 90 :=
  ⟨by decide,
   loopStep_valid_submit initState ['9', '0'] 90 (by decide) (by decide)
     (by decide) (by decide)⟩

/-- C3 (code bug): after two accepted commands the sketch has recorded no
interval at all — the history cursor is still 0, the interval sum is 0, no
timestamp was stored and the history array is untouched — although the claim
requires totalMessages - 1 = 1 recorded interval. -/
theorem intervals_never_recorded_bug :
    (loopStep (loopStep initState ['1', '0']) ['2', '0']).totalMessages = 2 ∧
    (loopStep (loopStep initState ['1', '0']) ['2', '0']).intervalHistoryIndex = 0 ∧
    (loopStep (loopStep initState ['1', '0']) ['2', '0']).totalInterval = 0 ∧
    (loopStep (loopStep initState ['1', '0']) ['2', '0']).lastMessageTime = 0 ∧
    (loopStep (loopStep initState ['1', '0']) ['2', '0']).intervalHistory =
      List.replicate 100 0 := by
  decide

/-- C4: a reset followed immediately by a snapshot yields the initial view —
total 0, error 0, no stress section, no interval section, empty history —
and the reset state has min = ULONG_MAX, max = 0, sum = 0, a cleared history
array, cursor 0, and an inactive stress session. -/
theorem reset_snapshot_initial (now : Nat) (st : DeviceState) :
    statsSnapshot now (handleResetStats st) =
      { totalMessages := 0, stress := StressView.none, intervalStats := none,
        errorCount := 0, history := [] } ∧
    (handleResetStats st).minInterval = ulongMax ∧
    (handleResetStats st).maxInterval = 0 ∧
    (handleResetStats st).totalInterval = 0 ∧
    (handleResetStats st).intervalHistory = List.replicate 100 0 ∧
    (handleResetStats st).intervalHistoryIndex = 0 ∧
    (handleResetStats st).stressTestActive = false :=
  ⟨rfl, rfl, rfl, rfl, rfl, rfl, rfl⟩

/-- C5: the snapshot computes the mean interval as sum / (total - 1) only
when the total message count exceeds 1; otherwise the interval section (and
with it the mean) is absent — no division is performed. -/
theorem stats_mean_guard (now : Nat) (st : DeviceState) :
    (st.totalMessages ≤ 1 → (statsSnapshot now st).intervalStats = none) ∧
    (1 < st.totalMessages →
      (statsSnapshot now st).intervalStats =
        some (st.minInterval, st.maxInterval,
          (st.totalInterval : ℚ) / ((st.totalMessages - 1 : Nat) : ℚ))) := by
  constructor
  · intro h
    show intervalStatsView st = none
    unfold intervalStatsView
    rw [if_neg (by omega)]
  · intro h
    show intervalStatsView st = _
    unfold intervalStatsView
    rw [if_pos h]

/-- A concrete statistics state with 3 messages and interval sum 10, used to
witness the snapshot theorems. -/
def exampleStatsState : DeviceState :=
  { initState with
      totalMessages := 3, totalInterval := 10, minInterval := 2, maxInterval := 6 }

/-- Witness for C5: with 3 messages and interval sum 10 the reported mean is
10 / 2 = 5. -/
theorem stats_mean_guard_witness :
    1 < exampleStatsState.totalMessages ∧
    (statsSnapshot 0 exampleStatsState).intervalStats = some (2, 6, (5 : ℚ)) :=
  ⟨by decide, by
    rw [(stats_mean_guard 0 exampleStatsState).2 (by decide)]
    norm_num [exampleStatsState, initState]⟩

/-- A concrete state whose last stress test has 5 messages and zero duration
(`lastMessageTime` equal to `stressTestStartTime`). -/
def zeroDurationStressState : DeviceState :=
  { initState with
      stressTestMessages := 5, stressTestStartTime := 1000, lastMessageTime := 1000 }

/-- C6 counterexample: at a zero-duration completed stress session the stats
page still performs the division — the rate comes out as +infinity
(5000.0 / 0.0), not as a guarded "undefined" report and not as zero. -/
theorem stress_rate_counterexample :
    (statsSnapshot 0 zeroDurationStressState).stress =
      StressView.completed 0 5 FloatRate.posInf ∧
    FloatRate.posInf ≠ FloatRate.val 0 ∧ FloatRate.posInf ≠ FloatRate.nan := by
  refine ⟨?_, by decide, by decide⟩
  show stressView 0 zeroDurationStressState = _
  decide

/-- C6 (amended): for every stress session view — active (line 145) or last
completed (line 154) — the rate is computed as messages * 1000 / duration
(duration = millis() - stressTestStartTime when active, lastMessageTime -
stressTestStartTime when completed) with NO zero-duration guard: a zero
duration still performs the float division, yielding +infinity whenever the
session count is positive (and NaN for 0/0 in the active view), not an
undefined/zero report. -/
theorem stress_rate_unguarded (now : Nat) (st : DeviceState) :
    (st.stressTestActive = true →
      (statsSnapshot now st).stress =
        StressView.active (stressElapsed now st) st.stressTestMessages
          (if stressElapsed now st = 0 then
             (if st.stressTestMessages = 0 then FloatRate.nan else FloatRate.posInf)
           else FloatRate.val (((st.stressTestMessages * 1000 : Nat) : ℚ) /
              ((stressElapsed now st : Nat) : ℚ)))) ∧
    (st.stressTestActive = false → 0 < st.stressTestMessages →
      (statsSnapshot now st).stress =
        StressView.completed (testDuration st) st.stressTestMessages
          (if testDuration st = 0 then FloatRate.posInf
           else FloatRate.val (((st.stressTestMessages * 1000 : Nat) : ℚ) /
              ((testDuration st : Nat) : ℚ)))) := by
  have hnum0 : (((st.stressTestMessages * 1000 : Nat) : ℚ) = 0) ↔
      st.stressTestMessages = 0 := by
    rw [Nat.cast_eq_zero]
    omega
  constructor
  · intro ha
    show stressView now st = _
    unfold stressView floatDiv
    rw [ha, if_pos rfl]
    by_cases hel : stressElapsed now st = 0
    · rw [if_pos hel, if_pos hel]
      by_cases hm0 : st.stressTestMessages = 0
      · rw [if_pos (hnum0.mpr hm0), if_pos hm0]
      · rw [if_neg (fun hq => hm0 (hnum0.mp hq)), if_neg hm0]
    · rw [if_neg hel, if_neg hel]
  · intro ha hm
    show stressView now st = _
    unfold stressView floatDiv
    rw [ha]
    rw [if_neg (by simp), if_pos hm]
    by_cases hd : testDuration st = 0
    · rw [if_pos hd, if_pos hd,
          if_neg (fun hq => Nat.lt_irrefl 0 (hnum0.mp hq ▸ hm))]
    · rw [if_neg hd, if_neg hd]

/-- A concrete state whose last stress test has 5 messages over 500 time
units, used to witness the amended C6's completed view. -/
def exampleStressState : DeviceState :=
  { initState with
      stressTestMessages := 5, stressTestStartTime := 1000, lastMessageTime := 1500 }

/-- A concrete state with an active stress session of 4 messages, started at
clock 1000 and viewed at clock 1000, so its elapsed time is zero. -/
def activeStressState : DeviceState :=
  { initState with
      stressTestActive := true, stressTestMessages := 4, stressTestStartTime := 1000 }

/-- Witness for the amended C6: the active view at zero elapsed time divides
anyway and shows +infinity, and the completed 5-message view over 500 time
units shows rate 10. -/
theorem stress_rate_unguarded_witness :
    activeStressState.stressTestActive = true ∧
    (statsSnapshot 1000 activeStressState).stress =
      StressView.active 0 4 FloatRate.posInf ∧
    exampleStressState.stressTestActive = false ∧
    0 < exampleStressState.stressTestMessages ∧
    (statsSnapshot 0 exampleStressState).stress =
      StressView.completed 500 5 (FloatRate.val 10) :=
  ⟨rfl,
   ((stress_rate_unguarded 1000 activeStressState).1 rfl).trans (by decide),
   rfl, by decide,
   ((stress_rate_unguarded 0 exampleStressState).2 rfl (by decide)).trans (by
     norm_num [exampleStressState, initState, testDuration, usub32, ulongMod])⟩

/-- C7 (code bug): after two accepted commands the stats page displays one
history cell, read from slot 99 of the ring — a slot nothing ever wrote (the
cursor is still 0 and the whole array still holds its initial zeros): the
displayed row is not a sequence of recorded intervals, because the sketch
never records any. -/
theorem history_display_fabricated_bug :
    historyDisplay (loopStep (loopStep initState ['1', '0']) ['2', '0']) = [0] ∧
    (loopStep (loopStep initState ['1', '0']) ['2', '0']).intervalHistoryIndex = 0 ∧
    (loopStep (loopStep initState ['1', '0']) ['2', '0']).intervalHistory =
      List.replicate 100 0 := by
  decide

/-- C8: the statistics page is a pure read — the state it leaves behind is
the state it was given — and in every reachable state two consecutive
snapshots with no intervening submit or reset (even at different clock
readings) return identical results. -/
theorem snapshot_pure_idempotent (st : DeviceState) (h : ReachableState st)
    (now1 now2 : Nat) :
    (handleStats now1 st).1 = st ∧
    (handleStats now2 (handleStats now1 st).1).2 = (handleStats now1 st).2 := by
  obtain ⟨ha, hm, -⟩ := reachable_stats_static st h
  refine ⟨rfl, ?_⟩
  show statsSnapshot now2 st = statsSnapshot now1 st
  unfold statsSnapshot stressView
  rw [ha, hm]
  rfl

/-- Witness for C8 from the initial state at clock readings 0 and 5. -/
theorem snapshot_pure_idempotent_witness :
    (handleStats 0 initState).1 = initState ∧
    (handleStats 5 (handleStats 0 initState).1).2 = (handleStats 0 initState).2 :=
  snapshot_pure_idempotent initState ReachableState.init 0 5

/-- Unsigned 32-bit subtraction recovers a true elapsed time below 2^32 from
wrapped endpoint values. -/
theorem usub32_mod_correct (b e : Nat) (_hb : b < ulongMod) (he : e < ulongMod) :
    usub32 ((b + e) % ulongMod) b = e := by
  unfold usub32 ulongMod
  unfold ulongMod at he
  omega

/-- C9: every timestamp difference the sketch computes (`testDuration` at
line 153 and `elapsedTime` at line 144) is 32-bit unsigned subtraction, so
when the clock wraps between the two readings the result still equals the
true elapsed time (any value below 2^32), a small value rather than a huge
misleading one. -/
theorem interval_wraparound (st : DeviceState) (e now : Nat)
    (hb : st.stressTestStartTime < ulongMod) (he : e < ulongMod)
    (hlast : st.lastMessageTime = (st.stressTestStartTime + e) % ulongMod)
    (hnow : now = (st.stressTestStartTime + e) % ulongMod) :
    testDuration st = e ∧ stressElapsed now st = e := by
  constructor
  · unfold testDuration
    rw [hlast]
    exact usub32_mod_correct _ _ hb he
  · unfold stressElapsed
    rw [hnow]
    exact usub32_mod_correct _ _ hb he

/-- A state whose millisecond clock wrapped between the start of the last
stress window (100 ticks before the wrap) and its last message (150 after). -/
def wrappedClockState : DeviceState :=
  { initState with stressTestStartTime := 4294967196, lastMessageTime := 150 }

/-- Witness for C9: a clock that wrapped from 4294967196 to 150 yields the
true elapsed 250, not a huge number. -/
theorem interval_wraparound_witness :
    wrappedClockState.stressTestStartTime < ulongMod ∧ (250 : Nat) < ulongMod ∧
    wrappedClockState.lastMessageTime =
      (wrappedClockState.stressTestStartTime + 250) % ulongMod ∧
    (testDuration wrappedClockState = 250 ∧
      stressElapsed 150 wrappedClockState = 250) :=
  ⟨by decide, by decide, by decide,
   interval_wraparound wrappedClockState 250 150 (by decide) (by decide)
     (by decide) (by decide)⟩

/-- C10: no command submission and no statistics reset ever writes
`currentTilt`: in every reachable state it still equals its initial 90. -/
theorem tilt_frame_invariant (st : DeviceState) (h : ReachableState st) :
    st.currentTilt = 90 :=
  (reachable_stats_static st h).2.2.2.2.2.2.2.2.2

/-- Witness for C10 after a submission and a reset. -/
theorem tilt_frame_invariant_witness :
    (handleResetStats (loopStep initState ['4', '5'])).currentTilt = 90 :=
  tilt_frame_invariant (handleResetStats (loopStep initState ['4', '5']))
    (ReachableState.reset (ReachableState.submit ['4', '5'] ReachableState.init))
